import Mathlib

/-!
Shallow embedding of the domain-gated retrieval-and-arbitration pipeline of the
fiscal-assistant repository (src/app.py and src/api.py), and verification of its
specification's claims.

Conventions of the embedding:
* Python strings are Lean `String`s; `str.lower()` is modelled by `pyLower`
  (simple case mapping on ASCII and the Latin-1 uppercase block, which covers
  every character appearing in the source's token lists); `str.strip()` is
  modelled by `pyStrip`; the `in` substring test is `strContains`.
* The Elasticsearch call of `_get_contextual_results` is an external
  collaborator: it is passed in as a value of type `SearchOutcome`
  (a hit list, or `err` for any raised exception).  A caller of
  `recherche_fiscale` supplies a search oracle `String → SearchOutcome`;
  `rechercheFiscaleT` additionally records whether the search was performed,
  so that "the Retrieval Engine is never invoked" is expressible.
* Relevance scores (`_score`) are modelled as rationals; the code never
  computes with them, it only copies the first one.
* The LangChain agent executor wrapped by `_init_agent` is not part of this
  repository's sources; it is modelled from the spec (§4.5) in `agentLoop`,
  with the configuration constants taken from `_init_agent`.
-/

/-- Is `needle` a prefix of `hay` (character lists)? -/
def hasPre : List Char → List Char → Bool
  | [], _ => true
  | _ :: _, [] => false
  | a :: as, b :: bs => a == b && hasPre as bs

/-- Does `hay` contain `needle` as a contiguous substring (character lists)? -/
def hasSub : List Char → List Char → Bool
  | needle, [] => hasPre needle []
  | needle, c :: t => hasPre needle (c :: t) || hasSub needle t

/-- Python's `needle in hay` substring test on strings. -/
def strContains (hay needle : String) : Bool :=
  hasSub needle.toList hay.toList

/-- Simple lower-case mapping of one character: ASCII `A`–`Z` and the Latin-1
uppercase block `À`–`Þ` (excluding `×`) map down by 32, everything else is kept.
This is Python's `str.lower()` restricted to the alphabets the source uses. -/
def pyLowerChar (c : Char) : Char :=
  if 65 ≤ c.toNat ∧ c.toNat ≤ 90 then Char.ofNat (c.toNat + 32)
  else if 192 ≤ c.toNat ∧ c.toNat ≤ 222 ∧ c.toNat ≠ 215 then Char.ofNat (c.toNat + 32)
  else c

/-- Model of Python's `str.lower()`. -/
def pyLower (s : String) : String :=
  String.mk (s.toList.map pyLowerChar)

/-- Model of Python's `str.strip()`: drop whitespace from both ends. -/
def pyStrip (s : String) : String :=
  String.mk (((s.toList.dropWhile Char.isWhitespace).reverse.dropWhile Char.isWhitespace).reverse)

/-- The fixed keyword list `mots_cles_fiscaux` of `recherche_fiscale`
(src/app.py).  Two pairs of adjacent literals in the Python source lack a
separating comma, so Python concatenates them: the list really contains
`"réouverturetaxe sur la valeur ajoutée"` and `"actetitre"`, reproduced here
verbatim. -/
def motsClesFiscaux : List String :=
  ["impôt", "impot", "taxe", "TVA", "CFPNB", "cfpnb", "pv", "PV", "PME", "quitus", "PCF",
   "fiscalité", "déclaration", "CGU", "Patente", "récapitulatifs",
   "exonération", "remboursement", "trop perçu", "délai", "quitus fiscal ",
   "délai de paiement", "quittance", "récépissé", "revenus", "formalisation",
   "contribution", "taxation", "droit d\x27enregistrement", "droits d\x27enregistrement",
   "taxes d\x27enregistrement", "entreprise", "changement de statuts",
   "taxes sur les salaires", "taxe sur les salaires", "taxe foncière", "taxe professionnelle",
   "NINEA", "direct", "indirect", "réouverturetaxe sur la valeur ajoutée",
   "tva", "passeport", "taxe sur les boissons", "réductions", "immatriculation",
   "propriétaire", "compte", "duplicata",
   "IR", "IS", "patente", "douane", "régime fiscal", "code général des impôts",
   "procédure", "acte administratif", "exonérations",
   "obligation fiscale", "penalité", "amende", "contrôle fiscal",
   "démarrage des activités", "homologation", "actetitre",
   "SIGTAS", "imposition", "bail", "foncier bâti ", "foncier non bâti", "TEOM",
   "vvérification"]

/-- The fixed greeting-token list `salutations` (src/app.py, used both in
`recherche_fiscale` and in `run`). -/
def salutations : List String :=
  ["bonjour", "salut", "hello", "bonsoir", "coucou", "hi", "salam"]

/-- The fixed greeting reply of `_gerer_salutation` (src/app.py). -/
def messageSalutation : String :=
  "💼 Bonjour ! Assistant fiscal sénégalais à votre service. Posez-moi vos questions sur les impôts et taxes."

/-- The fixed out-of-domain refusal of `recherche_fiscale` (src/app.py). -/
def messageHorsDomaine : String :=
  "⚠️ Je suis un assistant spécialisé exclusivement en fiscalité sénégalaise.\n"

/-- The fixed not-found redirect of `recherche_fiscale` (src/app.py). -/
def messageNonTrouve : String :=
  "🔍 Je n\x27ai pas trouvé d\x27information précise dans ma base fiscale. Consultez le site officiel : www.impotsetdomaines.gouv.sn\n"

/-- One Elasticsearch hit, as consumed by `_get_contextual_results`:
its `_score` and the `question`/`reponse` fields of `_source`. -/
structure Hit where
  score : ℚ
  question : String
  reponse : String
deriving DecidableEq

/-- Outcome of the external `self.es.search(...)` call: either a hit list
(`res['hits']['hits']`) or any raised exception (`err`). -/
inductive SearchOutcome where
  | ok (hits : List Hit)
  | err
deriving DecidableEq

/-- Size bound passed in the search request body of `_get_contextual_results`
(src/app.py: `"size": 3`). -/
def esQuerySize : Nat := 3

/-- Contract of the Elasticsearch collaborator (spec §6 / §4.2): at most the
requested number of hits, ranked by non-increasing score. -/
def esContract (hits : List Hit) : Prop :=
  hits.length ≤ esQuerySize ∧ List.Chain' (fun a b => b.score ≤ a.score) hits

/-- Shallow embedding of `_get_contextual_results` (src/app.py): on an
exception, return `([], 0)`; on an empty hit list, return `([], 0)`; otherwise
return every hit's `reponse` together with the first hit's `_score`. -/
def getContextualResults : SearchOutcome → List String × ℚ
  | .err => ([], 0)
  | .ok [] => ([], 0)
  | .ok (h :: t) => ((h :: t).map Hit.reponse, h.score)

/-- Shallow embedding of `recherche_fiscale` (src/app.py), instrumented: the
second component records whether the Elasticsearch search was performed.
`search` is the external search oracle for this query. -/
def rechercheFiscaleT (search : String → SearchOutcome) (query : String) :
    String × Bool :=
  let queryLower := pyLower query
  if salutations.any (fun salut => strContains queryLower salut) then
    (messageSalutation, false)
  else if !(motsClesFiscaux.any (fun mot => strContains queryLower mot)) then
    (messageHorsDomaine, false)
  else
    match getContextualResults (search query) with
    | ([], _) => (messageNonTrouve, true)
    | (r :: _, _) => (r, true)

/-- The reply text of `recherche_fiscale` (src/app.py). -/
def rechercheFiscale (search : String → SearchOutcome) (query : String) : String :=
  (rechercheFiscaleT search query).1

/-- Shallow embedding of `vider_cache` (src/app.py): `response_cache.clear()`. -/
def viderCache (_cache : List (String × String)) : List (String × String) := []

/-- Outcome of one iteration of the `run` loop (src/app.py). -/
inductive TurnOutcome where
  | exitLoop
  | cacheCleared
  | greeting
  | answered (output : String)
  | errorRecovered (msg : String)
deriving DecidableEq

/-- Shallow embedding of one iteration of the `run` loop of src/app.py.
`agent` is the external `self.agent.invoke` call on the stripped input,
returning the output text or raising (`Except.error`, the `except Exception`
branch); `cache` is `self.response_cache`, modelled as an association list. -/
def runStep (agent : String → Except String String)
    (cache : List (String × String)) (userInput : String) :
    TurnOutcome × List (String × String) :=
  if (["exit", "quit", "q"] : List String).contains (pyLower (pyStrip userInput)) then
    (.exitLoop, cache)
  else if (["vider cache", "reset"] : List String).contains (pyLower (pyStrip userInput)) then
    (.cacheCleared, viderCache cache)
  else if salutations.any (fun salut => strContains (pyLower (pyStrip userInput)) salut) then
    (.greeting, cache)
  else
    match agent (pyStrip userInput) with
    | .ok out => (.answered out, cache)
    | .error e => (.errorRecovered e, viderCache cache)

/-- The fixed API key of `get_fiscalite` (src/api.py). -/
def apiKeySecret : String := "ma-cle-secrete"

/-- The fixed too-short-question reply of `get_fiscalite` (src/api.py). -/
def messageQuestionImprecise : String :=
  "❌ Veuillez poser une question fiscale plus précise."

/-- Result of the request boundary `get_fiscalite` (src/api.py):
a 403 `HTTPException`, a fixed message returned without touching the core, or
the core's answer (`assistant.agent.run(question)`). -/
inductive ApiResult where
  | unauthorized
  | message (text : String)
  | core (answer : String)
deriving DecidableEq

/-- Python's truthiness test `x_api_key and x_api_key != API_KEY` of
src/api.py: an absent header (`none`) and an empty header (`some ""`) are both
falsy, so neither triggers the 403. -/
def authRejects : Option String → Bool
  | some k => !(k == "") && !(k == apiKeySecret)
  | none => false

/-- Shallow embedding of `get_fiscalite` (src/api.py).  `agentRun` is the
external `assistant.agent.run` call. -/
def getFiscalite (agentRun : String → String) (question : String)
    (xApiKey : Option String) : ApiResult :=
  if authRejects xApiKey then
    .unauthorized
  else if pyStrip question == "" || question.length < 3 then
    .message messageQuestionImprecise
  else
    .core (agentRun question)

/-- Iteration cap passed to `initialize_agent` (src/app.py:
`max_iterations=4`). -/
def maxIterations : Nat := 4

/-- Stopping method passed to `initialize_agent` (src/app.py:
`early_stopping_method="generate"`). -/
def earlyStoppingMethod : String := "generate"

/-- One decision of the language model inside the agent loop: conclude with a
final answer, or invoke the tool on some input. -/
inductive AgentStep where
  | finish (answer : String)
  | act (toolInput : String)

/-- Final outcome of one agent turn: an answer, or a raised error. -/
inductive AgentOutcome where
  | answer (text : String)
  | failure (msg : String)
deriving DecidableEq

/-- Modelled from the spec: the LangChain agent executor wrapped by
`initialize_agent` in `_init_agent` (src/app.py) is library code outside this
repository's sources.  Spec §4.5 describes it as a Reasoning↔ToolInvocation
cycle: `policy` is the language model's decision given the observations so
far, `tool` the wrapped `recherche_fiscale` capability, `synthesize` the
model's forced best-effort final generation.  The fuel argument is the
remaining iteration budget; when it runs out, `early_stopping_method`
`"generate"` synthesizes an answer instead of failing.  The second component
counts the tool invocations performed. -/
def agentLoop (policy : List String → AgentStep) (tool : String → String)
    (synthesize : List String → String) : Nat → List String → AgentOutcome × Nat
  | 0, obs =>
    if earlyStoppingMethod == "generate" then (.answer (synthesize obs), 0)
    else (.failure "Agent stopped due to iteration limit.", 0)
  | n + 1, obs =>
    match policy obs with
    | .finish a => (.answer a, 0)
    | .act i =>
      let r := agentLoop policy tool synthesize n (obs ++ [tool i])
      (r.1, r.2 + 1)

/-- One agent turn, started with the configured iteration budget and no
observations. -/
def runAgent (policy : List String → AgentStep) (tool : String → String)
    (synthesize : List String → String) : AgentOutcome × Nat :=
  agentLoop policy tool synthesize maxIterations []

/-! Helper lemmas about the string model. -/

theorem toNat_ofNat_valid (n : Nat) (h : n < 0xd800) : (Char.ofNat n).toNat = n := by
  rw [Char.ofNat, dif_pos (Or.inl h : Nat.isValidChar n)]
  rfl

theorem hasPre_mem {needle hay : List Char} (h : hasPre needle hay = true) :
    ∀ c ∈ needle, c ∈ hay := by
  induction needle generalizing hay with
  | nil => intro c hc; cases hc
  | cons a as ih =>
    cases hay with
    | nil => simp [hasPre] at h
    | cons b bs =>
      simp only [hasPre, Bool.and_eq_true, beq_iff_eq] at h
      intro c hc
      rcases List.mem_cons.1 hc with rfl | hc
      · exact h.1 ▸ List.mem_cons_self _ _
      · exact List.mem_cons_of_mem _ (ih h.2 c hc)

theorem hasSub_mem {needle hay : List Char} (h : hasSub needle hay = true) :
    ∀ c ∈ needle, c ∈ hay := by
  induction hay with
  | nil =>
    cases needle with
    | nil => intro c hc; cases hc
    | cons a as => simp [hasSub, hasPre] at h
  | cons b bs ih =>
    simp only [hasSub, Bool.or_eq_true] at h
    rcases h with h | h
    · exact hasPre_mem h
    · exact fun c hc => List.mem_cons_of_mem _ (ih h c hc)

theorem pyLowerChar_not_upper (c : Char) :
    ¬(65 ≤ (pyLowerChar c).toNat ∧ (pyLowerChar c).toNat ≤ 90) := by
  unfold pyLowerChar
  by_cases h1 : 65 ≤ c.toNat ∧ c.toNat ≤ 90
  · rw [if_pos h1, toNat_ofNat_valid _ (by omega)]
    omega
  · rw [if_neg h1]
    by_cases h2 : 192 ≤ c.toNat ∧ c.toNat ≤ 222 ∧ c.toNat ≠ 215
    · rw [if_pos h2, toNat_ofNat_valid _ (by omega)]
      omega
    · rw [if_neg h2]
      exact h1

theorem pyLower_no_upper (q : String) :
    ∀ c ∈ (pyLower q).toList, ¬(65 ≤ c.toNat ∧ c.toNat ≤ 90) := by
  intro c hc
  have hrepr : (pyLower q).toList = q.toList.map pyLowerChar := rfl
  rw [hrepr] at hc
  obtain ⟨d, _, rfl⟩ := List.mem_map.1 hc
  exact pyLowerChar_not_upper d

/-! Oracles and concrete data used by the witness theorems. -/

/-- A search oracle that always raises (service unavailable). -/
def searchErrO : String → SearchOutcome := fun _ => SearchOutcome.err

/-- A search oracle that always returns an empty hit list. -/
def searchEmptyO : String → SearchOutcome := fun _ => SearchOutcome.ok []

/-- A concrete two-hit result for the TVA-deadline scenario of spec §8. -/
def hitsTva : List Hit :=
  [⟨12, "délai déclaration TVA", "30 jours"⟩,
   ⟨5, "autre question", "autre réponse"⟩]

/-- A search oracle returning `hitsTva`. -/
def searchTvaO : String → SearchOutcome := fun _ => SearchOutcome.ok hitsTva

/-- C1: a query containing a greeting token (case-insensitive substring)
gets the fixed greeting reply, whatever the search oracle does, and the
retrieval step is not performed. -/
theorem recherche_greeting_precedence (search : String → SearchOutcome)
    (query : String)
    (h : salutations.any (fun salut => strContains (pyLower query) salut) = true) :
    rechercheFiscale search query = messageSalutation ∧
    (rechercheFiscaleT search query).2 = false := by
  unfold rechercheFiscale rechercheFiscaleT
  simp [h]

/-- Witness for C1 at the spec scenario extended with a co-occurring domain
keyword (`TVA`/`tva`): the greeting still wins. -/
theorem recherche_greeting_precedence_inst :
    motsClesFiscaux.any
      (fun mot => strContains (pyLower "Bonjour, quel est le taux de TVA ?") mot) = true ∧
    rechercheFiscale searchErrO "Bonjour, quel est le taux de TVA ?" = messageSalutation ∧
    (rechercheFiscaleT searchErrO "Bonjour, quel est le taux de TVA ?").2 = false :=
  ⟨by decide,
   (recherche_greeting_precedence searchErrO _ (by decide)).1,
   (recherche_greeting_precedence searchErrO _ (by decide)).2⟩

/-- C5: a query with no greeting token and no domain keyword gets the fixed
refusal, whatever the search oracle does, and the retrieval step is not
performed. -/
theorem recherche_out_of_domain (search : String → SearchOutcome) (query : String)
    (hg : salutations.any (fun salut => strContains (pyLower query) salut) = false)
    (hk : motsClesFiscaux.any (fun mot => strContains (pyLower query) mot) = false) :
    rechercheFiscale search query = messageHorsDomaine ∧
    (rechercheFiscaleT search query).2 = false := by
  unfold rechercheFiscale rechercheFiscaleT
  simp [hg, hk]

/-- Witness for C5 on an off-domain query. -/
theorem recherche_out_of_domain_inst :
    rechercheFiscale searchTvaO "quelle est la meilleure recette de mafe" =
      messageHorsDomaine ∧
    (rechercheFiscaleT searchTvaO "quelle est la meilleure recette de mafe").2 = false :=
  recherche_out_of_domain searchTvaO _ (by decide) (by decide)

/-- C2: for an in-domain query whose search yields a non-empty hit list, the
reply is exactly the first (top-ranked) hit's answer text. -/
theorem recherche_top_candidate (search : String → SearchOutcome) (query : String)
    (hits : List Hit)
    (hg : salutations.any (fun salut => strContains (pyLower query) salut) = false)
    (hk : motsClesFiscaux.any (fun mot => strContains (pyLower query) mot) = true)
    (hs : search query = SearchOutcome.ok hits) (hne : hits ≠ []) :
    rechercheFiscale search query = (hits.head hne).reponse := by
  unfold rechercheFiscale rechercheFiscaleT
  cases hits with
  | nil => exact absurd rfl hne
  | cons h t => simp [hg, hk, hs, getContextualResults]

/-- Witness for C2 at the spec §8 scenario: the top hit's `"30 jours"` is
returned, not the lower-ranked answer and not a concatenation. -/
theorem recherche_top_candidate_inst :
    rechercheFiscale searchTvaO "Quels sont les délais pour la déclaration de TVA ?" =
      "30 jours" :=
  recherche_top_candidate searchTvaO _ hitsTva (by decide) (by decide) rfl (by decide)

/-- C3: a raised search exception yields the empty result with score 0, and an
in-domain query then gets the same fixed not-found reply as a genuinely empty
hit list — the two causes are indistinguishable in the returned text. -/
theorem recherche_failure_indistinguishable
    (searchFail searchEmpty : String → SearchOutcome) (query : String)
    (hg : salutations.any (fun salut => strContains (pyLower query) salut) = false)
    (hk : motsClesFiscaux.any (fun mot => strContains (pyLower query) mot) = true)
    (h1 : searchFail query = SearchOutcome.err)
    (h2 : searchEmpty query = SearchOutcome.ok []) :
    getContextualResults SearchOutcome.err = ([], 0) ∧
    rechercheFiscale searchFail query = messageNonTrouve ∧
    rechercheFiscale searchEmpty query = rechercheFiscale searchFail query := by
  refine ⟨rfl, ?_, ?_⟩ <;>
    · unfold rechercheFiscale rechercheFiscaleT
      simp [hg, hk, h1, h2, getContextualResults]

/-- Witness for C3 on a concrete in-domain query. -/
theorem recherche_failure_indistinguishable_inst :
    rechercheFiscale searchErrO "quel est le taux de tva" = messageNonTrouve ∧
    rechercheFiscale searchEmptyO "quel est le taux de tva" =
      rechercheFiscale searchErrO "quel est le taux de tva" :=
  ⟨(recherche_failure_indistinguishable searchErrO searchEmptyO _
      (by decide) (by decide) rfl rfl).2.1,
   (recherche_failure_indistinguishable searchErrO searchEmptyO _
      (by decide) (by decide) rfl rfl).2.2⟩

/-- C7: under the Elasticsearch collaborator contract (at most the requested
`size` = 3 hits, ranked by non-increasing score), `_get_contextual_results`
returns at most 3 candidate answers, in hit order, and its reported best score
is the first hit's score, or 0 when the hit list is empty or the call fails. -/
theorem retrieval_topk_contract (hits : List Hit) (hc : esContract hits) :
    (getContextualResults (SearchOutcome.ok hits)).1.length ≤ 3 ∧
    (getContextualResults (SearchOutcome.ok hits)).1 = hits.map Hit.reponse ∧
    (getContextualResults (SearchOutcome.ok hits)).2 =
      (match hits with | [] => 0 | x :: _ => x.score) ∧
    List.Chain' (fun a b => b.score ≤ a.score) hits ∧
    getContextualResults SearchOutcome.err = ([], 0) := by
  obtain ⟨hlen, hchain⟩ := hc
  cases hits with
  | nil => exact ⟨by simp [getContextualResults], by simp [getContextualResults],
      by simp [getContextualResults], hchain, rfl⟩
  | cons x t =>
    have hlen3 : t.length + 1 ≤ 3 := by simpa [esQuerySize] using hlen
    refine ⟨?_, rfl, rfl, hchain, rfl⟩
    simpa [getContextualResults] using hlen3

/-- Concrete three-hit instance for C7. -/
def hitsContract : List Hit :=
  [⟨12, "q1", "r1"⟩, ⟨7, "q2", "r2"⟩, ⟨7, "q3", "r3"⟩]

/-- Witness for C7 on a concrete three-hit, tie-containing result. -/
theorem retrieval_topk_contract_inst :
    (getContextualResults (SearchOutcome.ok hitsContract)).1.length ≤ 3 :=
  (retrieval_topk_contract hitsContract
    ⟨by decide,
     List.Chain.cons (by decide) (List.Chain.cons (by decide) List.Chain.nil)⟩).1

/-- C9: `recherche_fiscale` lowercases the query but matches keywords
verbatim, so a keyword containing an ASCII uppercase letter can never match
any query; a query whose only fiscal term is such an acronym (and which
contains no lowercase keyword and no greeting token) gets the out-of-domain
refusal without any retrieval. -/
theorem uppercase_keywords_unreachable (k : String) (_hk : k ∈ motsClesFiscaux)
    (hup : ∃ c ∈ k.toList, 65 ≤ c.toNat ∧ c.toNat ≤ 90)
    (q : String) (search : String → SearchOutcome) :
    strContains (pyLower q) k = false ∧
    rechercheFiscale search "Quel est mon NINEA" = messageHorsDomaine ∧
    (rechercheFiscaleT search "Quel est mon NINEA").2 = false := by
  refine ⟨?_, ?_, ?_⟩
  · cases hcon : strContains (pyLower q) k with
    | false => rfl
    | true =>
      exfalso
      obtain ⟨c, hcmem, hcup⟩ := hup
      exact pyLower_no_upper q c (hasSub_mem hcon c hcmem) hcup
  · have hg : salutations.any
        (fun salut => strContains (pyLower "Quel est mon NINEA") salut) = false := by decide
    have hk2 : motsClesFiscaux.any
        (fun mot => strContains (pyLower "Quel est mon NINEA") mot) = false := by decide
    unfold rechercheFiscale rechercheFiscaleT
    simp [hg, hk2]
  · have hg : salutations.any
        (fun salut => strContains (pyLower "Quel est mon NINEA") salut) = false := by decide
    have hk2 : motsClesFiscaux.any
        (fun mot => strContains (pyLower "Quel est mon NINEA") mot) = false := by decide
    unfold rechercheFiscaleT
    simp [hg, hk2]

/-- Witness for C9 with the keyword `"NINEA"`. -/
theorem uppercase_keywords_unreachable_inst :
    strContains (pyLower "Mon NINEA svp") "NINEA" = false :=
  (uppercase_keywords_unreachable "NINEA" (by decide)
    ⟨'N', by decide, by decide⟩ "Mon NINEA svp" searchErrO).1

/-- The tool-invocation count of a loop run never exceeds its budget. -/
theorem agentLoop_count_le (policy : List String → AgentStep) (tool : String → String)
    (synthesize : List String → String) (n : Nat) (obs : List String) :
    (agentLoop policy tool synthesize n obs).2 ≤ n := by
  induction n generalizing obs with
  | zero =>
    unfold agentLoop
    split <;> simp
  | succ n ih =>
    unfold agentLoop
    cases hp : policy obs with
    | finish a => simp
    | act i =>
      simp only []
      exact Nat.succ_le_succ (ih (obs ++ [tool i]))

/-- If the policy never concludes, the loop exhausts its budget and ends with
a synthesized answer. -/
theorem agentLoop_no_finish (policy : List String → AgentStep) (tool : String → String)
    (synthesize : List String → String)
    (hpol : ∀ obs a, policy obs ≠ AgentStep.finish a) (n : Nat) (obs : List String) :
    ∃ obs2, agentLoop policy tool synthesize n obs =
      (AgentOutcome.answer (synthesize obs2), n) := by
  induction n generalizing obs with
  | zero =>
    refine ⟨obs, ?_⟩
    unfold agentLoop earlyStoppingMethod
    simp
  | succ n ih =>
    cases hp : policy obs with
    | finish a => exact absurd hp (hpol obs a)
    | act i =>
      obtain ⟨obs2, h2⟩ := ih (obs ++ [tool i])
      refine ⟨obs2, ?_⟩
      unfold agentLoop
      rw [hp]
      simp [h2]

/-- C8: the Reasoning↔ToolInvocation cycle performs at most 4 tool
invocations per turn, and when the cap is reached without a concluding
answer the turn still ends with a non-empty synthesized answer (early
stopping by generation), not a failure. -/
theorem agent_cap_early_stopping (policy : List String → AgentStep)
    (tool : String → String) (synthesize : List String → String)
    (hs : ∀ xs, synthesize xs ≠ "") :
    (runAgent policy tool synthesize).2 ≤ maxIterations ∧
    ((∀ obs a, policy obs ≠ AgentStep.finish a) →
      ∃ obs2, runAgent policy tool synthesize =
          (AgentOutcome.answer (synthesize obs2), maxIterations) ∧
        synthesize obs2 ≠ "") := by
  constructor
  · exact agentLoop_count_le policy tool synthesize maxIterations []
  · intro hpol
    obtain ⟨obs2, h2⟩ := agentLoop_no_finish policy tool synthesize hpol maxIterations []
    exact ⟨obs2, h2, hs obs2⟩

/-- A policy that never concludes. -/
def polW : List String → AgentStep := fun _ => AgentStep.act "délais de déclaration"

/-- A concrete tool observation. -/
def toolW : String → String := fun _ => "observation de la base fiscale"

/-- A concrete non-empty forced generation. -/
def synthW : List String → String :=
  fun _ => "Réponse de synthèse : consultez www.impotsetdomaines.gouv.sn"

/-- Witness for C8: with a never-concluding policy the turn stops after
exactly 4 tool calls with the non-empty synthesized answer. -/
theorem agent_cap_early_stopping_inst :
    (runAgent polW toolW synthW).2 ≤ maxIterations ∧
    ∃ obs2, runAgent polW toolW synthW =
        (AgentOutcome.answer (synthW obs2), maxIterations) ∧ synthW obs2 ≠ "" := by
  have h := agent_cap_early_stopping polW toolW synthW (fun xs => by unfold synthW; decide)
  exact ⟨h.1, h.2 (fun obs a hcon => AgentStep.noConfusion hcon)⟩

/-- A concrete core call used by the boundary witnesses. -/
def coreW : String → String := fun _ => "réponse du noyau fiscal"

/-- C4 counterexample: the question `"ab "` has only 2 non-whitespace
characters, yet `get_fiscalite` does not return the fixed imprecise-question
message — it invokes the core — because the code tests the raw length
(`len(question) < 3`), not the non-whitespace count. -/
theorem boundary_short_question_cex :
    (("ab ".toList.filter (fun c => !c.isWhitespace)).length < 3) ∧
    getFiscalite coreW "ab " none = ApiResult.core (coreW "ab ") := by
  decide

/-- C4 (amended): a question that is all-whitespace or shorter than 3 raw
characters is rejected with the fixed message, without invoking the core
(the reply is independent of the core function). -/
theorem boundary_validation_amended (agentRun agentRun2 : String → String)
    (q : String) (key : Option String)
    (hauth : authRejects key = false)
    (hq : pyStrip q = "" ∨ q.length < 3) :
    getFiscalite agentRun q key = ApiResult.message messageQuestionImprecise ∧
    getFiscalite agentRun2 q key = getFiscalite agentRun q key := by
  rcases hq with h | h <;> constructor <;> simp [getFiscalite, hauth, h]

/-- Witness for the amended C4 at the 2-character question `"xy"`. -/
theorem boundary_validation_amended_inst :
    getFiscalite coreW "xy" none = ApiResult.message messageQuestionImprecise :=
  (boundary_validation_amended coreW coreW "xy" none (by decide)
    (Or.inr (by decide))).1

/-- C10 counterexample: an empty `x-api-key` header is supplied and differs
from the fixed secret, yet no 403 is raised — the request proceeds to the
core — because `x_api_key and x_api_key != API_KEY` is falsy for `""`. -/
theorem api_key_empty_cex :
    ("" ≠ apiKeySecret) ∧
    getFiscalite coreW "question sur la taxe" (some "") =
      ApiResult.core (coreW "question sur la taxe") := by
  decide

/-- C10 (amended): the 403 is raised if and only if a non-empty key is
supplied that differs from the fixed secret, and when it is raised it
pre-empts question validation and the core (the outcome is `unauthorized`
for every question and every core function). -/
theorem api_key_check_amended (agentRun : String → String) (q : String)
    (key : Option String) :
    (getFiscalite agentRun q key = ApiResult.unauthorized ↔
      ∃ s, key = some s ∧ s ≠ "" ∧ s ≠ apiKeySecret) ∧
    (authRejects key = true →
      ∀ (agentRun2 : String → String) (q2 : String),
        getFiscalite agentRun2 q2 key = ApiResult.unauthorized) := by
  constructor
  · constructor
    · intro h
      cases hb : authRejects key with
      | false =>
        exfalso
        unfold getFiscalite at h
        rw [hb] at h
        simp at h
        split at h <;> simp_all
      | true =>
        cases key with
        | none => simp [authRejects] at hb
        | some s =>
          refine ⟨s, rfl, ?_, ?_⟩ <;>
            · simp [authRejects] at hb
              tauto
    · rintro ⟨s, rfl, h1, h2⟩
      have hb : authRejects (some s) = true := by simp [authRejects, h1, h2]
      simp [getFiscalite, hb]
  · intro hb agentRun2 q2
    simp [getFiscalite, hb]

/-- Witness for the amended C10: a wrong non-empty key yields the 403 for a
well-formed question. -/
theorem api_key_check_amended_inst :
    getFiscalite coreW "quel impôt payer ?" (some "mauvaise-cle") =
      ApiResult.unauthorized :=
  (api_key_check_amended coreW "quel impôt payer ?" (some "mauvaise-cle")).1.mpr
    ⟨"mauvaise-cle", rfl, by decide, by decide⟩

/-- An agent call that succeeds with a fresh answer. -/
def agentOkW : String → Except String String := fun _ => Except.ok "réponse fraîche"

/-- An agent call that raises. -/
def agentErrW : String → Except String String := fun _ => Except.error "panne du service"

/-- C6 counterexample: even when `response_cache` already holds an entry for
the exact repeated query, the loop invokes the agent and returns its answer —
the cached value is never consulted — and the cache is left unchanged: no
entry is ever added or read, so the cache cannot shortcut repeated work. -/
theorem cache_unused_cex :
    runStep agentOkW [("impôt", "réponse en cache")] "impôt" =
      (TurnOutcome.answered "réponse fraîche", [("impôt", "réponse en cache")]) ∧
    ("réponse fraîche" ≠ "réponse en cache") := by
  decide

/-- C6 (amended): the turn outcome is independent of the cache contents (the
cache is never read); the cache is either left unchanged or emptied by
`vider_cache` (nothing is ever inserted); the explicit commands
`vider cache`/`reset` clear it; and the catch-all error-recovery path clears
it. -/
theorem cache_clear_only_amended (agent : String → Except String String)
    (cache cache2 : List (String × String)) (input : String) :
    (runStep agent cache input).1 = (runStep agent cache2 input).1 ∧
    ((runStep agent cache input).2 = cache ∨
      (runStep agent cache input).2 = viderCache cache) ∧
    ((["vider cache", "reset"] : List String).contains (pyLower (pyStrip input)) = true →
      runStep agent cache input = (TurnOutcome.cacheCleared, viderCache cache)) ∧
    (∀ e, (runStep agent cache input).1 = TurnOutcome.errorRecovered e →
      (runStep agent cache input).2 = viderCache cache) := by
  refine ⟨?_, ?_, ?_, ?_⟩
  · unfold runStep
    split
    · rfl
    · split
      · rfl
      · split
        · rfl
        · cases agent (pyStrip input) <;> rfl
  · unfold runStep
    split
    · exact Or.inl rfl
    · split
      · exact Or.inr rfl
      · split
        · exact Or.inl rfl
        · cases agent (pyStrip input) with
          | ok out => exact Or.inl rfl
          | error e => exact Or.inr rfl
  · intro h2
    have hne : (["exit", "quit", "q"] : List String).contains (pyLower (pyStrip input)) = false := by
      simp only [List.contains, List.elem_eq_mem, decide_eq_true_eq, List.mem_cons,
        List.not_mem_nil, or_false] at h2 ⊢
      rcases h2 with h2 | h2 <;> rw [h2] <;> decide
    unfold runStep
    rw [hne, h2]
    rfl
  · intro e
    unfold runStep
    split
    · intro h; cases h
    · split
      · intro h; cases h
      · split
        · intro h; cases h
        · cases agent (pyStrip input) with
          | ok out => intro h; cases h
          | error e2 => intro _; rfl

/-- Witness for the amended C6: an agent exception on an ordinary question
empties a non-empty cache through `vider_cache`. -/
theorem cache_clear_only_amended_inst :
    (runStep agentErrW [("clé", "valeur")] "question impôt").2 =
      viderCache [("clé", "valeur")] :=
  (cache_clear_only_amended agentErrW [("clé", "valeur")] [] "question impôt").2.2.2
    "panne du service" (by decide)
